import Mathlib

/-!
Shallow embedding of the MediFriend clinic-booking application
(`models.py`, `database.py`, `routes/doctor.py`, `routes/patient.py`).

Tables are modelled as lists of rows; SQLite `lastrowid` counters are
carried explicitly in the state.  `CURRENT_TIMESTAMP` defaults and the
`datetime('now', ...)` comparisons are modelled with a `now : Nat`
parameter measured in seconds.  Each `execute_query(..., commit=True)`
call in the source opens its own connection and commits on its own, so
every database-layer function below is a total state transformer; route
handlers compose them exactly in source order.
-/

namespace HMS

/-- `appointments.status`, per the CHECK constraint in `models.py`. -/
inductive Status where
  | PENDING
  | CONFIRMED
  | REJECTED
  | COMPLETED
deriving DecidableEq, Repr

/-- `notifications.type`, per the CHECK constraint in `models.py`. -/
inductive NType where
  | APPOINTMENT_REQUESTED
  | APPOINTMENT_ACCEPTED
  | APPOINTMENT_REJECTED
  | PRESCRIPTION_WRITTEN
deriving DecidableEq, Repr

/-- `users.role`, per the CHECK constraint in `models.py`. -/
inductive Role where
  | PATIENT
  | DOCTOR
deriving DecidableEq, Repr

/-- Flash category strings used by the route handlers. -/
inductive Flash where
  | success
  | danger
  | info
  | warning
  | error
deriving DecidableEq, Repr

/-- A row of `users` (the columns the modelled operations read). -/
structure User where
  id : Nat
  full_name : String
  role : Role
deriving DecidableEq, Repr

/-- A row of `appointments`. -/
structure Appointment where
  id : Nat
  patient_id : Nat
  doctor_id : Nat
  date : String
  time : String
  symptoms : Option String
  status : Status
  created_at : Nat
deriving DecidableEq, Repr

/-- One entry of the medicines list stored in `prescriptions.medicines_json`. -/
structure Medicine where
  name : String
  dosage : String
  duration : String
deriving DecidableEq, Repr

/-- A row of `prescriptions`; `medicines_json` is modelled as the list of
entries it serialises (`json.dumps(medicines)` in `routes/doctor.py`). -/
structure Prescription where
  id : Nat
  doctor_id : Nat
  patient_id : Nat
  appointment_id : Option Nat
  diagnosis : String
  medicines : List Medicine
  notes : Option String
deriving DecidableEq, Repr

/-- A row of `uploads` (the columns the modelled operations read). -/
structure Upload where
  id : Nat
  patient_id : Nat
  filename : String
deriving DecidableEq, Repr

/-- A row of `notifications`. -/
structure Notification where
  id : Nat
  user_id : Nat
  type : NType
  message : String
  link : Option String
  is_read : Bool
  appointment_id : Option Nat
  prescription_id : Option Nat
  created_at : Nat
deriving DecidableEq, Repr

/-- The database state.  `patient_details_user_ids` records which users own
a `patient_details` row (only its existence matters to the modelled
queries); the `next*Id` fields model SQLite's `lastrowid` sequence for the
tables the modelled operations insert into. -/
structure DB where
  users : List User
  patient_details_user_ids : List Nat
  appointments : List Appointment
  prescriptions : List Prescription
  uploads : List Upload
  notifications : List Notification
  nextAppointmentId : Nat
  nextPrescriptionId : Nat
  nextNotificationId : Nat
deriving Repr

/-- The authenticated session the route layer injects
(`session['user_id']`, `session['full_name']`, `session['role']`). -/
structure Session where
  user_id : Nat
  full_name : String
  role : Role
deriving DecidableEq, Repr

def seven_days : Nat := 7 * 86400

def thirty_days : Nat := 30 * 86400

/-! ## Data-access layer (`database.py`) -/

/-- `update_appointment_status`: `UPDATE appointments SET status = ? WHERE id = ?`. -/
def update_appointment_status (db : DB) (appointment_id : Nat) (status : Status) : DB :=
  { db with appointments :=
      db.appointments.map fun a =>
        if a.id == appointment_id then { a with status := status } else a }

/-- `cancel_appointment`: `DELETE FROM appointments WHERE id = ?`. -/
def cancel_appointment (db : DB) (appointment_id : Nat) : DB :=
  { db with appointments := db.appointments.filter fun a => !(a.id == appointment_id) }

/-- `create_notification`: insert a notification row (`is_read` defaults to 0,
`created_at` defaults to the current timestamp); returns `lastrowid`. -/
def create_notification (db : DB) (user_id : Nat) (notification_type : NType)
    (message : String) (link : Option String) (appointment_id : Option Nat)
    (prescription_id : Option Nat) (now : Nat) : DB × Nat :=
  let nid := db.nextNotificationId
  ({ db with
      notifications := db.notifications ++
        [{ id := nid, user_id := user_id, type := notification_type,
           message := message, link := link, is_read := false,
           appointment_id := appointment_id, prescription_id := prescription_id,
           created_at := now }],
      nextNotificationId := nid + 1 }, nid)

/-- `create_appointment`: insert a PENDING row, look the patient up by id,
and - when `lastrowid` and the patient row are both truthy - notify the
doctor with type APPOINTMENT_REQUESTED and link `/doctor/appointments`. -/
def create_appointment (db : DB) (patient_id doctor_id : Nat) (date time : String)
    (symptoms : Option String) (now : Nat) : DB × Nat :=
  let aid := db.nextAppointmentId
  let db1 : DB :=
    { db with
        appointments := db.appointments ++
          [{ id := aid, patient_id := patient_id, doctor_id := doctor_id,
             date := date, time := time, symptoms := symptoms,
             status := Status.PENDING, created_at := now }],
        nextAppointmentId := aid + 1 }
  match db1.users.find? fun u => u.id == patient_id with
  | some patient =>
      if aid ≠ 0 then
        let message :=
          patient.full_name ++ " has requested an appointment for " ++ date ++ " at " ++ time
        ((create_notification db1 doctor_id NType.APPOINTMENT_REQUESTED message
            (some "/doctor/appointments") (some aid) none now).1, aid)
      else (db1, aid)
  | none => (db1, aid)

/-- `create_prescription`: insert a prescription row; returns `lastrowid`. -/
def create_prescription (db : DB) (doctor_id patient_id : Nat)
    (appointment_id : Option Nat) (diagnosis : String) (medicines : List Medicine)
    (notes : Option String) : DB × Nat :=
  let pid := db.nextPrescriptionId
  ({ db with
      prescriptions := db.prescriptions ++
        [{ id := pid, doctor_id := doctor_id, patient_id := patient_id,
           appointment_id := appointment_id, diagnosis := diagnosis,
           medicines := medicines, notes := notes }],
      nextPrescriptionId := pid + 1 }, pid)

/-- `delete_uploaded_prescription`: `DELETE FROM uploads WHERE id = ?`. -/
def delete_uploaded_prescription (db : DB) (upload_id : Nat) : DB :=
  { db with uploads := db.uploads.filter fun u => !(u.id == upload_id) }

/-- Byte-wise lexicographic comparison of character lists, modelling how
SQLite compares TEXT values (the stored dates and timestamps are ASCII, so
code-point order coincides with byte order). -/
def charListLe : List Char → List Char → Bool
  | [], _ => true
  | _ :: _, [] => false
  | a :: as2, b :: bs2 =>
      if a < b then true else if b < a then false else charListLe as2 bs2

/-- TEXT `<=` on strings, byte-wise as in SQLite. -/
def strLe (s t : String) : Bool := charListLe s.data t.data

/-- TEXT `MAX` of two strings. -/
def strMax (s t : String) : String := if strLe s t then t else s

/-- `ORDER BY created_at DESC` comparator for notifications. -/
def notifLe (a b : Notification) : Bool := decide (a.created_at ≤ b.created_at)

/-- Descending insertion for a boolean comparator, modelling
`ORDER BY ... DESC`. -/
def insertDesc {α : Type} (le : α → α → Bool) (x : α) : List α → List α
  | [] => [x]
  | y :: ys => if le y x then x :: y :: ys else y :: insertDesc le x ys

/-- Descending insertion sort for a boolean comparator, modelling
`ORDER BY ... DESC`. -/
def sortDesc {α : Type} (le : α → α → Bool) : List α → List α
  | [] => []
  | x :: xs => insertDesc le x (sortDesc le xs)

/-- `get_user_notifications`: first delete the user's read notifications
older than 7 days, then return the user's (optionally unread-only)
notifications ordered by `created_at DESC`, `LIMIT 50`. -/
def get_user_notifications (db : DB) (user_id : Nat) (unread_only : Bool)
    (now : Nat) : DB × List Notification :=
  let db1 : DB :=
    { db with notifications :=
        db.notifications.filter fun n =>
          !(n.user_id == user_id && n.is_read && decide (n.created_at + seven_days < now)) }
  let relevant :=
    if unread_only then
      db1.notifications.filter fun n => n.user_id == user_id && !n.is_read
    else
      db1.notifications.filter fun n => n.user_id == user_id
  (db1, (sortDesc notifLe relevant).take 50)

/-- `get_unread_notification_count`. -/
def get_unread_notification_count (db : DB) (user_id : Nat) : Nat :=
  (db.notifications.filter fun n => n.user_id == user_id && !n.is_read).length

/-- `mark_notifications_as_read`:
`UPDATE notifications SET is_read = 1 WHERE user_id = ? AND is_read = 0`. -/
def mark_notifications_as_read (db : DB) (user_id : Nat) : DB :=
  { db with notifications :=
      db.notifications.map fun n =>
        if n.user_id == user_id && !n.is_read then { n with is_read := true } else n }

/-- `delete_read_notifications`:
`DELETE FROM notifications WHERE user_id = ? AND is_read = 1`. -/
def delete_read_notifications (db : DB) (user_id : Nat) : DB :=
  { db with notifications :=
      db.notifications.filter fun n => !(n.user_id == user_id && n.is_read) }

/-- `cleanup_old_notifications` (run once at process start from `app.py`):
delete every notification older than 30 days, any owner, any read state. -/
def cleanup_old_notifications (db : DB) (now : Nat) : DB :=
  { db with notifications :=
      db.notifications.filter fun n => !(decide (n.created_at + thirty_days < now)) }

/-- The appointments of one patient with one doctor in status CONFIRMED or
COMPLETED - the rows the `get_doctor_patients` join retains for a group. -/
def ccAppointments (db : DB) (doctor_id patient_id : Nat) : List Appointment :=
  db.appointments.filter fun a =>
    a.patient_id == patient_id && a.doctor_id == doctor_id &&
      (a.status == Status.CONFIRMED || a.status == Status.COMPLETED)

/-- A row of the `get_doctor_patients` result set (aggregate columns). -/
structure RosterEntry where
  id : Nat
  full_name : String
  total_appointments : Nat
  last_visit : String
  completed_appointments : Nat
deriving DecidableEq, Repr

/-- `ORDER BY MAX(a.date) DESC` comparator for roster rows. -/
def rosterLe (a b : RosterEntry) : Bool := strLe a.last_visit b.last_visit

/-- One group of the `get_doctor_patients` query: a user joined with a
`patient_details` row contributes a roster row when the join retains at
least one CONFIRMED/COMPLETED appointment with the doctor, aggregated with
`COUNT(DISTINCT a.id)`, `MAX(a.date)` and the COMPLETED count. -/
def rosterRow (db : DB) (doctor_id : Nat) (u : User) : Option RosterEntry :=
  if u.id ∈ db.patient_details_user_ids then
    if ccAppointments db doctor_id u.id = [] then none
    else
      some { id := u.id, full_name := u.full_name,
             total_appointments :=
               (((ccAppointments db doctor_id u.id).map fun a => a.id).dedup).length,
             last_visit :=
               ((ccAppointments db doctor_id u.id).map fun a => a.date).foldl
                 strMax "",
             completed_appointments :=
               ((ccAppointments db doctor_id u.id).filter
                 fun a => a.status == Status.COMPLETED).length }
  else none

/-- `get_doctor_patients`: users joined with `patient_details` and their
CONFIRMED/COMPLETED appointments with the doctor, grouped per patient,
ordered by `MAX(a.date) DESC`. -/
def get_doctor_patients (db : DB) (doctor_id : Nat) : List RosterEntry :=
  sortDesc rosterLe (db.users.filterMap (rosterRow db doctor_id))

/-! ## Route handlers (`routes/doctor.py`, `routes/patient.py`)

Each handler body is translated from source order.  Exceptions raised
inside a handler's `try` block land in its `except` branch, which flashes
`danger`; statements already committed before the exception persist,
because every `execute_query` call commits on its own connection. -/

/-- Body of `accept_appointment`: fetch the appointment, unconditionally
set its status to CONFIRMED, then notify the patient.  When the id does
not resolve, the fetch returns `None` and the subscription
`appointment['date']` raises after the update has already committed. -/
def accept_appointment (db : DB) (s : Session) (now : Nat)
    (appointment_id : Nat) : DB × Flash :=
  let fetched := db.appointments.find? fun a => a.id == appointment_id
  let db1 := update_appointment_status db appointment_id Status.CONFIRMED
  match fetched with
  | none => (db1, Flash.danger)
  | some appt =>
      let message :=
        "Dr. " ++ s.full_name ++ " accepted your appointment for "
          ++ appt.date ++ " at " ++ appt.time
      ((create_notification db1 appt.patient_id NType.APPOINTMENT_ACCEPTED message
          (some "/patient/appointments") (some appointment_id) none now).1,
        Flash.success)

/-- Body of `reject_appointment`: like accept, but status REJECTED,
a `None` link, and an `info` flash. -/
def reject_appointment (db : DB) (s : Session) (now : Nat)
    (appointment_id : Nat) : DB × Flash :=
  let fetched := db.appointments.find? fun a => a.id == appointment_id
  let db1 := update_appointment_status db appointment_id Status.REJECTED
  match fetched with
  | none => (db1, Flash.danger)
  | some appt =>
      let message :=
        "Dr. " ++ s.full_name ++ " declined your appointment request for "
          ++ appt.date ++ " at " ++ appt.time
      ((create_notification db1 appt.patient_id NType.APPOINTMENT_REJECTED message
          none (some appointment_id) none now).1,
        Flash.info)

/-- Body of `complete_appointment`: unconditionally set status COMPLETED;
the handler flashes success whether or not any row matched. -/
def complete_appointment (db : DB) (appointment_id : Nat) : DB × Flash :=
  (update_appointment_status db appointment_id Status.COMPLETED, Flash.success)

/-- Body of `cancel_appointment_route`: hard-delete the row; the handler
flashes success whether or not any row matched. -/
def cancel_appointment_route (db : DB) (appointment_id : Nat) : DB × Flash :=
  (cancel_appointment db appointment_id, Flash.success)

/-- Body of `delete_uploaded_prescription` (route): delete the upload row;
flashes success whether or not any row matched. -/
def delete_uploaded_prescription_route (db : DB) (upload_id : Nat) : DB × Flash :=
  (delete_uploaded_prescription db upload_id, Flash.success)

/-- Drop leading whitespace characters from a character list. -/
def dropLeadingWs : List Char → List Char
  | [] => []
  | c :: cs => if c.isWhitespace then dropLeadingWs cs else c :: cs

/-- Python's `str.strip()`: remove whitespace from both ends. -/
def pyStrip (s : String) : String :=
  { data := dropLeadingWs (dropLeadingWs s.data.reverse).reverse }

/-- The medicines kept by `write_prescription`: `zip` of the three form
lists (truncating to the shortest), keeping an entry only when all three
stripped fields are non-empty, storing the stripped values in order. -/
def validMedicines : List String → List String → List String → List Medicine
  | n :: ns, d :: ds, u :: us =>
      if pyStrip n ≠ "" ∧ pyStrip d ≠ "" ∧ pyStrip u ≠ "" then
        { name := pyStrip n, dosage := pyStrip d, duration := pyStrip u }
          :: validMedicines ns ds us
      else validMedicines ns ds us
  | _, _, _ => []

/-- POST body of `write_prescription`: strip diagnosis and notes, build the
medicines list, reject an empty diagnosis without writing, otherwise insert
the prescription and notify the patient. -/
def write_prescription (db : DB) (s : Session) (patient_id appointment_id : Nat)
    (diagnosisRaw notesRaw : String)
    (medicine_names medicine_dosages medicine_durations : List String)
    (now : Nat) : DB × Flash :=
  let diagnosis := pyStrip diagnosisRaw
  let notes := pyStrip notesRaw
  let medicines := validMedicines medicine_names medicine_dosages medicine_durations
  if diagnosis = "" then (db, Flash.error)
  else
    let r := create_prescription db s.user_id patient_id (some appointment_id)
      diagnosis medicines (if notes = "" then none else some notes)
    if r.2 ≠ 0 then
      let message := "Dr. " ++ s.full_name ++ " has written a prescription for you"
      ((create_notification r.1 patient_id NType.PRESCRIPTION_WRITTEN message
          (some "/patient/prescriptions") none (some r.2) now).1, Flash.success)
    else (r.1, Flash.error)

/-- `mark_notifications_read` (the notification-panel POST in both route
files): mark all of the user's unread notifications read, then delete all
of the user's read notifications. -/
def mark_notifications_read (db : DB) (user_id : Nat) : DB :=
  delete_read_notifications (mark_notifications_as_read db user_id) user_id

/-! ### `role_required` wrappers

`role_required(role)` only compares `session['role']` with the required
role; on mismatch it flashes `danger` and redirects without running the
handler.  No handler compares `session['user_id']` with the row's
`doctor_id` / `patient_id`. -/

/-- `accept_appointment` behind `role_required('DOCTOR')`. -/
def accept_appointment_route (db : DB) (s : Session) (now : Nat)
    (appointment_id : Nat) : DB × Flash :=
  if s.role = Role.DOCTOR then accept_appointment db s now appointment_id
  else (db, Flash.danger)

/-- `reject_appointment` behind `role_required('DOCTOR')`. -/
def reject_appointment_route (db : DB) (s : Session) (now : Nat)
    (appointment_id : Nat) : DB × Flash :=
  if s.role = Role.DOCTOR then reject_appointment db s now appointment_id
  else (db, Flash.danger)

/-- `complete_appointment` behind `role_required('DOCTOR')`. -/
def complete_appointment_route (db : DB) (s : Session)
    (appointment_id : Nat) : DB × Flash :=
  if s.role = Role.DOCTOR then complete_appointment db appointment_id
  else (db, Flash.danger)

/-- `write_prescription` behind `role_required('DOCTOR')`. -/
def write_prescription_route (db : DB) (s : Session) (patient_id appointment_id : Nat)
    (diagnosisRaw notesRaw : String)
    (medicine_names medicine_dosages medicine_durations : List String)
    (now : Nat) : DB × Flash :=
  if s.role = Role.DOCTOR then
    write_prescription db s patient_id appointment_id diagnosisRaw notesRaw
      medicine_names medicine_dosages medicine_durations now
  else (db, Flash.danger)

/-- `cancel_appointment_route` behind `role_required('PATIENT')`. -/
def cancel_appointment_patient_route (db : DB) (s : Session)
    (appointment_id : Nat) : DB × Flash :=
  if s.role = Role.PATIENT then cancel_appointment_route db appointment_id
  else (db, Flash.danger)

/-- `delete_uploaded_prescription` route behind `role_required('PATIENT')`. -/
def delete_upload_patient_route (db : DB) (s : Session)
    (upload_id : Nat) : DB × Flash :=
  if s.role = Role.PATIENT then delete_uploaded_prescription_route db upload_id
  else (db, Flash.danger)

/-- The execution trace of `accept_appointment` in which the notification
INSERT fails: the status UPDATE has already committed on its own
connection; `execute_query` rolls back only the failing INSERT, and the
route's `except` branch flashes `danger`. -/
def accept_appointment_notif_insert_fails (db : DB) (appointment_id : Nat) :
    DB × Flash :=
  let fetched := db.appointments.find? fun a => a.id == appointment_id
  let db1 := update_appointment_status db appointment_id Status.CONFIRMED
  match fetched with
  | none => (db1, Flash.danger)
  | some _ => (db1, Flash.danger)

/-! ## Shared helper lemmas -/

theorem map_eq_self_of_mem {α : Type} {l : List α} {f : α → α}
    (h : ∀ a ∈ l, f a = a) : l.map f = l := by
  induction l with
  | nil => rfl
  | cons x xs ih =>
      simp only [List.map_cons]
      rw [h x (List.mem_cons_self x xs), ih fun a ha => h a (List.mem_cons_of_mem x ha)]

theorem insertDesc_perm {α : Type} (le : α → α → Bool) (x : α)
    (l : List α) : (insertDesc le x l).Perm (x :: l) := by
  induction l with
  | nil => exact List.Perm.refl _
  | cons y ys ih =>
      cases h : le y x with
      | true => simp [insertDesc, h]
      | false =>
          simp only [insertDesc, h, Bool.false_eq_true, if_false]
          exact (ih.cons y).trans (List.Perm.swap x y ys)

theorem sortDesc_perm {α : Type} (le : α → α → Bool) (l : List α) :
    (sortDesc le l).Perm l := by
  induction l with
  | nil => exact List.Perm.refl _
  | cons x xs ih => exact (insertDesc_perm le x (sortDesc le xs)).trans (ih.cons x)

theorem mem_sortDesc {α : Type} {le : α → α → Bool} {l : List α}
    {a : α} : a ∈ sortDesc le l ↔ a ∈ l :=
  (sortDesc_perm le l).mem_iff

theorem pairwise_insertDesc {α : Type} (le : α → α → Bool)
    (htot : ∀ a b, le a b = false → le b a = true)
    (htrans : ∀ a b c, le a b = true → le b c = true → le a c = true)
    (x : α) {l : List α} (h : l.Pairwise fun a b => le b a = true) :
    (insertDesc le x l).Pairwise fun a b => le b a = true := by
  induction l with
  | nil => simp [insertDesc]
  | cons y ys ih =>
      rcases List.pairwise_cons.mp h with ⟨hy, hys⟩
      cases hxy : le y x with
      | true =>
          simp only [insertDesc, hxy, if_true]
          refine List.pairwise_cons.mpr ⟨?_, h⟩
          intro b hb
          rcases List.mem_cons.mp hb with rfl | hb2
          · exact hxy
          · exact htrans b y x (hy b hb2) hxy
      | false =>
          simp only [insertDesc, hxy, Bool.false_eq_true, if_false]
          refine List.pairwise_cons.mpr ⟨?_, ih hys⟩
          intro b hb
          rcases List.mem_cons.mp ((insertDesc_perm le x ys).mem_iff.mp hb) with
            rfl | hb3
          · exact htot y b hxy
          · exact hy b hb3

theorem pairwise_sortDesc {α : Type} (le : α → α → Bool)
    (htot : ∀ a b, le a b = false → le b a = true)
    (htrans : ∀ a b c, le a b = true → le b c = true → le a c = true)
    (l : List α) : (sortDesc le l).Pairwise fun a b => le b a = true := by
  induction l with
  | nil => simp [sortDesc]
  | cons x xs ih => exact pairwise_insertDesc le htot htrans x ih

theorem notifLe_total : ∀ a b : Notification,
    notifLe a b = false → notifLe b a = true := by
  intro a b h
  simp only [notifLe, decide_eq_false_iff_not, not_le] at h
  simpa [notifLe] using Nat.le_of_lt h

theorem notifLe_trans : ∀ a b c : Notification,
    notifLe a b = true → notifLe b c = true → notifLe a c = true := by
  intro a b c h1 h2
  simp only [notifLe, decide_eq_true_eq] at h1 h2 ⊢
  exact Nat.le_trans h1 h2

theorem charListLe_total : ∀ as2 bs2 : List Char,
    charListLe as2 bs2 = false → charListLe bs2 as2 = true := by
  intro as2
  induction as2 with
  | nil => intro bs2 h; cases h
  | cons a as3 ih =>
      intro bs2 h
      cases bs2 with
      | nil => rfl
      | cons b bs3 =>
          by_cases hab : a < b
          · simp [charListLe, hab] at h
          · by_cases hba : b < a
            · simp [charListLe, hba]
            · have hne : ¬b < a := hba
              have heq : a = b := le_antisymm (not_lt.mp hba) (not_lt.mp hab)
              subst heq
              simp only [charListLe, lt_irrefl, if_false] at h ⊢
              exact ih bs3 h

theorem charListLe_trans : ∀ as2 bs2 cs2 : List Char,
    charListLe as2 bs2 = true → charListLe bs2 cs2 = true →
    charListLe as2 cs2 = true := by
  intro as2
  induction as2 with
  | nil => intro bs2 cs2 h1 h2; rfl
  | cons a as3 ih =>
      intro bs2 cs2 h1 h2
      cases bs2 with
      | nil => cases h1
      | cons b bs3 =>
          cases cs2 with
          | nil => cases h2
          | cons c cs3 =>
              by_cases hab : a < b
              · by_cases hbc : b < c
                · simp [charListLe, lt_trans hab hbc]
                · by_cases hcb : c < b
                  · simp [charListLe, hbc, hcb] at h2
                  · have hbceq : b = c := le_antisymm (not_lt.mp hcb) (not_lt.mp hbc)
                    subst hbceq
                    simp [charListLe, hab]
              · by_cases hba : b < a
                · simp [charListLe, hab, hba] at h1
                · have habeq : a = b := le_antisymm (not_lt.mp hba) (not_lt.mp hab)
                  subst habeq
                  simp only [charListLe, lt_irrefl, if_false] at h1
                  by_cases hac : a < c
                  · simp [charListLe, hac]
                  · by_cases hca : c < a
                    · simp [charListLe, hac, hca] at h2
                    · simp only [charListLe, hac, hca, if_false]
                      simp only [charListLe, hac, hca, if_false] at h2
                      exact ih bs3 cs3 h1 h2

theorem rosterLe_total : ∀ a b : RosterEntry,
    rosterLe a b = false → rosterLe b a = true := by
  intro a b h
  exact charListLe_total _ _ h

theorem rosterLe_trans : ∀ a b c : RosterEntry,
    rosterLe a b = true → rosterLe b c = true → rosterLe a c = true := by
  intro a b c h1 h2
  exact charListLe_trans _ _ _ h1 h2

theorem mem_update_status_of_id_eq {db : DB} {a : Appointment} {i : Nat}
    {st : Status} (ha : a ∈ db.appointments) (hid : a.id = i) :
    { a with status := st } ∈ (update_appointment_status db i st).appointments :=
  List.mem_map.mpr ⟨a, ha, by simp [hid]⟩

theorem mem_update_status_of_id_ne {db : DB} {a : Appointment} {i : Nat}
    {st : Status} (ha : a ∈ db.appointments) (hid : a.id ≠ i) :
    a ∈ (update_appointment_status db i st).appointments :=
  List.mem_map.mpr ⟨a, ha, by simp [hid]⟩

theorem update_status_not_found {db : DB} {i : Nat} {st : Status}
    (h : ∀ a ∈ db.appointments, a.id ≠ i) :
    update_appointment_status db i st = db := by
  have hmap : db.appointments.map
      (fun a => if a.id == i then { a with status := st } else a) = db.appointments :=
    map_eq_self_of_mem fun a ha => by simp [h a ha]
  simp only [update_appointment_status]
  rw [hmap]

theorem cancel_not_found {db : DB} {i : Nat}
    (h : ∀ a ∈ db.appointments, a.id ≠ i) :
    cancel_appointment db i = db := by
  have hfil : db.appointments.filter (fun a => !(a.id == i)) = db.appointments :=
    List.filter_eq_self.mpr fun a ha => by simp [h a ha]
  simp only [cancel_appointment]
  rw [hfil]

/-! ## Claim C1 -/

theorem accept_appointments_eq (db : DB) (s : Session) (now i : Nat) :
    (accept_appointment db s now i).1.appointments
      = (update_appointment_status db i Status.CONFIRMED).appointments := by
  unfold accept_appointment
  cases h : db.appointments.find? fun a => a.id == i <;>
    simp [h, create_notification]

theorem reject_appointments_eq (db : DB) (s : Session) (now i : Nat) :
    (reject_appointment db s now i).1.appointments
      = (update_appointment_status db i Status.REJECTED).appointments := by
  unfold reject_appointment
  cases h : db.appointments.find? fun a => a.id == i <;>
    simp [h, create_notification]

def apptC1 : Appointment :=
  { id := 1, patient_id := 10, doctor_id := 20, date := "2024-01-01",
    time := "10:00", symptoms := none, status := Status.REJECTED, created_at := 0 }

def dbC1 : DB :=
  { users := [{ id := 10, full_name := "Pat", role := Role.PATIENT },
              { id := 20, full_name := "Doc", role := Role.DOCTOR }],
    patient_details_user_ids := [10],
    appointments := [apptC1],
    prescriptions := [], uploads := [], notifications := [],
    nextAppointmentId := 2, nextPrescriptionId := 1, nextNotificationId := 1 }

def sessC1 : Session := { user_id := 20, full_name := "Doc", role := Role.DOCTOR }

/-- C1 (counterexample): appointment 1 is in status REJECTED, yet the
accept handler moves it to CONFIRMED - the status does leave REJECTED,
refuting the claim that accept transitions only PENDING appointments and
that no transition leaves REJECTED or COMPLETED. -/
theorem C1_counterexample :
    ((dbC1.appointments.find? fun a => a.id == 1).map Appointment.status
        = some Status.REJECTED)
    ∧ (((accept_appointment dbC1 sessC1 5 1).1.appointments.find?
          fun a => a.id == 1).map Appointment.status = some Status.CONFIRMED) :=
  ⟨rfl, rfl⟩

/-- C1 (amended): the three transition handlers are unguarded - accept sets
the matching appointment's status to CONFIRMED, reject to REJECTED and
complete to COMPLETED regardless of its current status (so the status can
leave REJECTED and COMPLETED), while appointments with a different id are
untouched. -/
theorem C1_unguarded_transitions (db : DB) (s : Session) (now i : Nat)
    (a : Appointment) (ha : a ∈ db.appointments) :
    (a.id = i →
       { a with status := Status.CONFIRMED }
           ∈ (accept_appointment db s now i).1.appointments
       ∧ { a with status := Status.REJECTED }
           ∈ (reject_appointment db s now i).1.appointments
       ∧ { a with status := Status.COMPLETED }
           ∈ (complete_appointment db i).1.appointments)
    ∧ (a.id ≠ i →
       a ∈ (accept_appointment db s now i).1.appointments
       ∧ a ∈ (reject_appointment db s now i).1.appointments
       ∧ a ∈ (complete_appointment db i).1.appointments) := by
  constructor
  · intro hid
    refine ⟨?_, ?_, ?_⟩
    · rw [accept_appointments_eq]
      exact mem_update_status_of_id_eq ha hid
    · rw [reject_appointments_eq]
      exact mem_update_status_of_id_eq ha hid
    · exact mem_update_status_of_id_eq ha hid
  · intro hid
    refine ⟨?_, ?_, ?_⟩
    · rw [accept_appointments_eq]
      exact mem_update_status_of_id_ne ha hid
    · rw [reject_appointments_eq]
      exact mem_update_status_of_id_ne ha hid
    · exact mem_update_status_of_id_ne ha hid

/-- C1 (witness): the amended theorem applied to the concrete REJECTED
appointment of `dbC1`. -/
theorem C1_witness :
    { apptC1 with status := Status.CONFIRMED }
        ∈ (accept_appointment dbC1 sessC1 5 1).1.appointments
    ∧ { apptC1 with status := Status.REJECTED }
        ∈ (reject_appointment dbC1 sessC1 5 1).1.appointments
    ∧ { apptC1 with status := Status.COMPLETED }
        ∈ (complete_appointment dbC1 1).1.appointments :=
  (C1_unguarded_transitions dbC1 sessC1 5 1 apptC1
      (List.mem_singleton_self apptC1)).1 rfl

/-! ## Claim C2 -/

def apptC2 : Appointment :=
  { id := 1, patient_id := 10, doctor_id := 2, date := "2024-03-05",
    time := "09:30", symptoms := none, status := Status.PENDING, created_at := 0 }

def dbC2 : DB :=
  { users := [{ id := 10, full_name := "Pat", role := Role.PATIENT },
              { id := 2, full_name := "Owner", role := Role.DOCTOR },
              { id := 3, full_name := "Eve", role := Role.DOCTOR }],
    patient_details_user_ids := [10],
    appointments := [apptC2],
    prescriptions := [],
    uploads := [{ id := 1, patient_id := 10, filename := "scan.png" }],
    notifications := [],
    nextAppointmentId := 2, nextPrescriptionId := 1, nextNotificationId := 1 }

def sessC2intruder : Session :=
  { user_id := 3, full_name := "Eve", role := Role.DOCTOR }

def sessC2patient : Session :=
  { user_id := 10, full_name := "Pat", role := Role.PATIENT }

/-- C2 (counterexample): appointment 1 belongs to doctor 2, yet a request
by doctor 3 transitions it from PENDING to CONFIRMED - a caller other than
the appointment's doctor does not leave the row unchanged, refuting the
ownership claim. -/
theorem C2_counterexample :
    ((dbC2.appointments.find? fun a => a.id == 1).map Appointment.doctor_id
        = some 2)
    ∧ sessC2intruder.user_id = 3
    ∧ ((dbC2.appointments.find? fun a => a.id == 1).map Appointment.status
        = some Status.PENDING)
    ∧ (((accept_appointment_route dbC2 sessC2intruder 5 1).1.appointments.find?
          fun a => a.id == 1).map Appointment.status = some Status.CONFIRMED) :=
  ⟨rfl, rfl, rfl, rfl⟩

/-- C2 (amended): authorization is by session role only.  A caller whose
role is not DOCTOR cannot transition appointments or create prescriptions,
and a caller whose role is not PATIENT cannot cancel appointments or
delete uploads (the state is returned unchanged with a danger flash); but
among callers holding the required role no ownership check is made against
the row's doctor_id or patient_id - the outcome of accept, cancel and
delete-upload is independent of the caller's user id. -/
theorem C2_role_only_authorization (db : DB) (s : Session) (now i : Nat) :
    (s.role ≠ Role.DOCTOR →
        accept_appointment_route db s now i = (db, Flash.danger)
      ∧ reject_appointment_route db s now i = (db, Flash.danger)
      ∧ complete_appointment_route db s i = (db, Flash.danger)
      ∧ ∀ pid aid dr nr ns ds us,
          write_prescription_route db s pid aid dr nr ns ds us now
            = (db, Flash.danger))
    ∧ (s.role ≠ Role.PATIENT →
        cancel_appointment_patient_route db s i = (db, Flash.danger)
      ∧ delete_upload_patient_route db s i = (db, Flash.danger))
    ∧ (∀ uid1 uid2 name,
        accept_appointment_route db
            { user_id := uid1, full_name := name, role := Role.DOCTOR } now i
          = accept_appointment_route db
            { user_id := uid2, full_name := name, role := Role.DOCTOR } now i
      ∧ cancel_appointment_patient_route db
            { user_id := uid1, full_name := name, role := Role.PATIENT } i
          = cancel_appointment_patient_route db
            { user_id := uid2, full_name := name, role := Role.PATIENT } i
      ∧ delete_upload_patient_route db
            { user_id := uid1, full_name := name, role := Role.PATIENT } i
          = delete_upload_patient_route db
            { user_id := uid2, full_name := name, role := Role.PATIENT } i) := by
  refine ⟨fun h => ?_, fun h => ?_, fun uid1 uid2 name => ⟨rfl, rfl, rfl⟩⟩
  · refine ⟨?_, ?_, ?_, fun pid aid dr nr ns ds us => ?_⟩ <;>
      simp [accept_appointment_route, reject_appointment_route,
        complete_appointment_route, write_prescription_route, h]
  · constructor <;>
      simp [cancel_appointment_patient_route, delete_upload_patient_route, h]

/-- C2 (witness): the amended theorem applied at concrete inputs - a
patient session is turned away from the accept route, and two doctor
sessions with different user ids get identical accept outcomes on an
appointment owned by neither. -/
theorem C2_witness :
    accept_appointment_route dbC2 sessC2patient 5 1 = (dbC2, Flash.danger)
    ∧ accept_appointment_route dbC2
          { user_id := 3, full_name := "Eve", role := Role.DOCTOR } 5 1
        = accept_appointment_route dbC2
          { user_id := 4, full_name := "Eve", role := Role.DOCTOR } 5 1 :=
  ⟨((C2_role_only_authorization dbC2 sessC2patient 5 1).1 (by decide)).1,
    ((C2_role_only_authorization dbC2 sessC2patient 5 1).2.2 3 4 "Eve").1⟩

/-! ## Claim C3 -/

/-- C3: creating an appointment for a patient that resolves in `users`
appends exactly one new appointment row in status PENDING and exactly one
APPOINTMENT_REQUESTED notification addressed to the doctor, whose message
is the patient's name followed by the date and time, and whose link is the
non-null `/doctor/appointments`. -/
theorem C3_create_appointment (db : DB) (pid did : Nat) (date time : String)
    (sym : Option String) (now : Nat) (pat : User)
    (hpat : db.users.find? (fun u => u.id == pid) = some pat)
    (hid : db.nextAppointmentId ≠ 0) :
    (create_appointment db pid did date time sym now).1.appointments
      = db.appointments ++
        [{ id := db.nextAppointmentId, patient_id := pid, doctor_id := did,
           date := date, time := time, symptoms := sym,
           status := Status.PENDING, created_at := now }]
    ∧ (create_appointment db pid did date time sym now).1.notifications
      = db.notifications ++
        [{ id := db.nextNotificationId, user_id := did,
           type := NType.APPOINTMENT_REQUESTED,
           message := pat.full_name ++ " has requested an appointment for "
             ++ date ++ " at " ++ time,
           link := some "/doctor/appointments", is_read := false,
           appointment_id := some db.nextAppointmentId,
           prescription_id := none, created_at := now }]
    ∧ (create_appointment db pid did date time sym now).2
      = db.nextAppointmentId := by
  unfold create_appointment create_notification
  simp [hpat, hid]

def dbC3 : DB :=
  { users := [{ id := 10, full_name := "Alice", role := Role.PATIENT },
              { id := 20, full_name := "Bob", role := Role.DOCTOR }],
    patient_details_user_ids := [10],
    appointments := [], prescriptions := [], uploads := [], notifications := [],
    nextAppointmentId := 1, nextPrescriptionId := 1, nextNotificationId := 1 }

/-- C3 (witness): the theorem applied to a concrete booking by patient 10
(Alice) with doctor 20. -/
theorem C3_witness :
    (create_appointment dbC3 10 20 "2024-05-01" "11:00" none 99).1.appointments
      = [{ id := 1, patient_id := 10, doctor_id := 20, date := "2024-05-01",
           time := "11:00", symptoms := none, status := Status.PENDING,
           created_at := 99 }]
    ∧ (create_appointment dbC3 10 20 "2024-05-01" "11:00" none 99).1.notifications
      = [{ id := 1, user_id := 20, type := NType.APPOINTMENT_REQUESTED,
           message := "Alice has requested an appointment for 2024-05-01 at 11:00",
           link := some "/doctor/appointments", is_read := false,
           appointment_id := some 1, prescription_id := none, created_at := 99 }]
    ∧ (create_appointment dbC3 10 20 "2024-05-01" "11:00" none 99).2 = 1 :=
  C3_create_appointment dbC3 10 20 "2024-05-01" "11:00" none 99
    { id := 10, full_name := "Alice", role := Role.PATIENT } rfl (by decide)

/-! ## Claim C4 -/

/-- C4: a prescription request whose diagnosis is blank after trimming is
rejected with no state change; with a non-blank diagnosis exactly one
prescription row is written and the handler succeeds, storing exactly the
medicine entries whose three trimmed fields are all non-blank, in order -
an entry with any blank field is dropped, and zero stored medicines is
legal (the row is still written). -/
theorem C4_prescription_validation (db : DB) (s : Session) (pid aid : Nat)
    (dr nr : String) (ns ds us : List String) (now : Nat) :
    (pyStrip dr = "" →
      write_prescription db s pid aid dr nr ns ds us now = (db, Flash.error))
    ∧ (pyStrip dr ≠ "" → db.nextPrescriptionId ≠ 0 →
        (write_prescription db s pid aid dr nr ns ds us now).1.prescriptions
          = db.prescriptions ++
            [{ id := db.nextPrescriptionId, doctor_id := s.user_id,
               patient_id := pid, appointment_id := some aid,
               diagnosis := pyStrip dr,
               medicines := validMedicines ns ds us,
               notes := if pyStrip nr = "" then none else some (pyStrip nr) }]
        ∧ (write_prescription db s pid aid dr nr ns ds us now).2 = Flash.success)
    ∧ (∀ n d u ns2 ds2 us2,
        (pyStrip n = "" ∨ pyStrip d = "" ∨ pyStrip u = "") →
        validMedicines (n :: ns2) (d :: ds2) (u :: us2)
          = validMedicines ns2 ds2 us2)
    ∧ (∀ n d u ns2 ds2 us2,
        pyStrip n ≠ "" → pyStrip d ≠ "" → pyStrip u ≠ "" →
        validMedicines (n :: ns2) (d :: ds2) (u :: us2)
          = { name := pyStrip n, dosage := pyStrip d, duration := pyStrip u }
              :: validMedicines ns2 ds2 us2) := by
  refine ⟨fun h => ?_, fun h h0 => ?_, fun n d u ns2 ds2 us2 hblank => ?_,
    fun n d u ns2 ds2 us2 h1 h2 h3 => ?_⟩
  · simp [write_prescription, h]
  · constructor <;>
      simp [write_prescription, create_prescription, create_notification, h, h0]
  · rcases hblank with h1 | h1 | h1 <;> simp [validMedicines, h1]
  · simp [validMedicines, h1, h2, h3]

def dbC4 : DB :=
  { users := [{ id := 10, full_name := "Pat", role := Role.PATIENT },
              { id := 2, full_name := "Doc", role := Role.DOCTOR }],
    patient_details_user_ids := [10],
    appointments := [], prescriptions := [], uploads := [], notifications := [],
    nextAppointmentId := 1, nextPrescriptionId := 1, nextNotificationId := 1 }

def sessC4 : Session := { user_id := 2, full_name := "Doc", role := Role.DOCTOR }

/-- C4 (witness): the theorem applied at concrete inputs - a whitespace
diagnosis is rejected without writing, and a diagnosis of "Flu" with one
medicine entry whose dosage is blank yields a stored prescription with
zero medicines and a success flash. -/
theorem C4_witness :
    write_prescription dbC4 sessC4 10 1 "  " "note" ["OnlyName"] [""]
        ["5 days"] 7 = (dbC4, Flash.error)
    ∧ (write_prescription dbC4 sessC4 10 1 "Flu" "" ["OnlyName"] [" "]
        ["5 days"] 7).1.prescriptions
      = [{ id := 1, doctor_id := 2, patient_id := 10, appointment_id := some 1,
           diagnosis := "Flu", medicines := [], notes := none }]
    ∧ (write_prescription dbC4 sessC4 10 1 "Flu" "" ["OnlyName"] [" "]
        ["5 days"] 7).2 = Flash.success := by
  refine ⟨(C4_prescription_validation dbC4 sessC4 10 1 "  " "note" ["OnlyName"]
      [""] ["5 days"] 7).1 (by decide), ?_, ?_⟩
  · have h := ((C4_prescription_validation dbC4 sessC4 10 1 "Flu" "" ["OnlyName"]
      [" "] ["5 days"] 7).2.1 (by decide) (by decide)).1
    rw [h]
    rfl
  · exact ((C4_prescription_validation dbC4 sessC4 10 1 "Flu" "" ["OnlyName"]
      [" "] ["5 days"] 7).2.1 (by decide) (by decide)).2

/-! ## Claim C5 -/

def dbC5 : DB :=
  { users := [{ id := 10, full_name := "Pat", role := Role.PATIENT }],
    patient_details_user_ids := [10],
    appointments := [], prescriptions := [], uploads := [], notifications := [],
    nextAppointmentId := 1, nextPrescriptionId := 1, nextNotificationId := 1 }

def sessC5 : Session := { user_id := 2, full_name := "Doc", role := Role.DOCTOR }

/-- C5 (counterexample): appointment id 7 does not resolve, yet the
complete handler reports success ("Appointment marked as completed!"), not
a failure - refuting the claim that every operation on an unresolvable id
is reported as an error. -/
theorem C5_counterexample :
    (dbC5.appointments.find? fun a => a.id == 7) = none
    ∧ complete_appointment dbC5 7 = (dbC5, Flash.success) :=
  ⟨rfl, rfl⟩

/-- C5 (amended): when the appointment id does not resolve, no operation
changes any state; accept and reject report an error (danger flash), but
complete and cancel report success even though nothing matched. -/
theorem C5_not_found (db : DB) (s : Session) (now i : Nat)
    (h : db.appointments.find? (fun a => a.id == i) = none) :
    accept_appointment db s now i = (db, Flash.danger)
    ∧ reject_appointment db s now i = (db, Flash.danger)
    ∧ complete_appointment db i = (db, Flash.success)
    ∧ cancel_appointment_route db i = (db, Flash.success) := by
  have hne : ∀ a ∈ db.appointments, a.id ≠ i := by
    intro a ha
    simpa using List.find?_eq_none.mp h a ha
  refine ⟨?_, ?_, ?_, ?_⟩
  · simp [accept_appointment, h, update_status_not_found hne]
  · simp [reject_appointment, h, update_status_not_found hne]
  · simp [complete_appointment, update_status_not_found hne]
  · simp [cancel_appointment_route, cancel_not_found hne]

/-- C5 (witness): the amended theorem applied to `dbC5`, which has no
appointment with id 7. -/
theorem C5_witness :
    accept_appointment dbC5 sessC5 3 7 = (dbC5, Flash.danger)
    ∧ reject_appointment dbC5 sessC5 3 7 = (dbC5, Flash.danger)
    ∧ complete_appointment dbC5 7 = (dbC5, Flash.success)
    ∧ cancel_appointment_route dbC5 7 = (dbC5, Flash.success) :=
  C5_not_found dbC5 sessC5 3 7 rfl

/-! ## Claim C6 -/

def apptC6 : Appointment :=
  { id := 1, patient_id := 10, doctor_id := 2, date := "2024-04-01",
    time := "14:00", symptoms := none, status := Status.PENDING, created_at := 0 }

def dbC6 : DB :=
  { users := [{ id := 10, full_name := "Pat", role := Role.PATIENT },
              { id := 2, full_name := "Doc", role := Role.DOCTOR }],
    patient_details_user_ids := [10],
    appointments := [apptC6],
    prescriptions := [], uploads := [], notifications := [],
    nextAppointmentId := 2, nextPrescriptionId := 1, nextNotificationId := 1 }

/-- C6 (counterexample): accepting PENDING appointment 1 with the
notification INSERT failing leaves the appointment CONFIRMED and the
notification table empty - the status update committed by the earlier
statement is not rolled back, so a partial state is committed, refuting
the operation-level atomicity claim. -/
theorem C6_counterexample :
    ((dbC6.appointments.find? fun a => a.id == 1).map Appointment.status
        = some Status.PENDING)
    ∧ (((accept_appointment_notif_insert_fails dbC6 1).1.appointments.find?
          fun a => a.id == 1).map Appointment.status = some Status.CONFIRMED)
    ∧ (accept_appointment_notif_insert_fails dbC6 1).1.notifications = []
    ∧ (accept_appointment_notif_insert_fails dbC6 1).2 = Flash.danger :=
  ⟨rfl, rfl, rfl, rfl⟩

/-- C6 (amended): rollback is per statement, not per operation - every
`execute_query` call commits on its own connection, so when the
notification INSERT of the accept operation fails, only that INSERT is
rolled back (no notification row is written) while the already committed
status UPDATE persists, and the caller sees an error flash. -/
theorem C6_per_statement_rollback (db : DB) (i : Nat) (a : Appointment)
    (ha : a ∈ db.appointments) :
    (accept_appointment_notif_insert_fails db i).1.notifications
      = db.notifications
    ∧ (accept_appointment_notif_insert_fails db i).2 = Flash.danger
    ∧ (a.id = i → { a with status := Status.CONFIRMED }
        ∈ (accept_appointment_notif_insert_fails db i).1.appointments)
    ∧ (a.id ≠ i → a ∈ (accept_appointment_notif_insert_fails db i).1.appointments)
    := by
  have h1 : (accept_appointment_notif_insert_fails db i).1
      = update_appointment_status db i Status.CONFIRMED := by
    unfold accept_appointment_notif_insert_fails
    cases db.appointments.find? fun x => x.id == i <;> rfl
  have h2 : (accept_appointment_notif_insert_fails db i).2 = Flash.danger := by
    unfold accept_appointment_notif_insert_fails
    cases db.appointments.find? fun x => x.id == i <;> rfl
  refine ⟨by rw [h1]; rfl, h2, fun hid => ?_, fun hid => ?_⟩
  · rw [h1]
    exact mem_update_status_of_id_eq ha hid
  · rw [h1]
    exact mem_update_status_of_id_ne ha hid

/-- C6 (witness): the amended theorem applied to the PENDING appointment
of `dbC6`. -/
theorem C6_witness :
    (accept_appointment_notif_insert_fails dbC6 1).1.notifications
      = dbC6.notifications
    ∧ (accept_appointment_notif_insert_fails dbC6 1).2 = Flash.danger
    ∧ { apptC6 with status := Status.CONFIRMED }
        ∈ (accept_appointment_notif_insert_fails dbC6 1).1.appointments :=
  ⟨(C6_per_statement_rollback dbC6 1 apptC6 (List.mem_singleton_self apptC6)).1,
    (C6_per_statement_rollback dbC6 1 apptC6 (List.mem_singleton_self apptC6)).2.1,
    (C6_per_statement_rollback dbC6 1 apptC6
        (List.mem_singleton_self apptC6)).2.2.1 rfl⟩

/-! ## Shared notification-fetch lemmas -/

theorem mem_get_user_notifications {db : DB} {u now : Nat} {q : Bool}
    {m : Notification} (hm : m ∈ (get_user_notifications db u q now).2) :
    m ∈ db.notifications ∧ m.user_id = u := by
  unfold get_user_notifications at hm
  have hm3 := mem_sortDesc.mp (List.take_subset _ _ hm)
  cases q with
  | false =>
      simp only [Bool.false_eq_true, if_false] at hm3
      rcases List.mem_filter.mp hm3 with ⟨hmem, hcond⟩
      exact ⟨(List.mem_filter.mp hmem).1, by simpa using hcond⟩
  | true =>
      simp only [if_true] at hm3
      rcases List.mem_filter.mp hm3 with ⟨hmem, hcond⟩
      refine ⟨(List.mem_filter.mp hmem).1, ?_⟩
      have := (Bool.and_eq_true _ _).mp hcond
      simpa using this.1

theorem get_user_notifications_empty_of_no_user {db : DB} {u now : Nat}
    (h : ∀ n ∈ db.notifications, n.user_id ≠ u) :
    (get_user_notifications db u false now).2 = [] := by
  rcases hfe : (get_user_notifications db u false now).2 with _ | ⟨m, ms⟩
  · rfl
  · exfalso
    have hm : m ∈ (get_user_notifications db u false now).2 := by
      rw [hfe]; exact List.mem_cons_self m ms
    rcases mem_get_user_notifications hm with ⟨hmem, hu⟩
    exact h m hmem hu

/-! ## Claim C7 -/

theorem open_panel_no_user_rows (db : DB) (u : Nat) :
    ∀ n ∈ (mark_notifications_read db u).notifications, n.user_id ≠ u := by
  intro n hn hu
  simp only [mark_notifications_read, delete_read_notifications,
    mark_notifications_as_read, List.mem_filter, List.mem_map] at hn
  obtain ⟨⟨m, hm, hfm⟩, hcond⟩ := hn
  by_cases hmu : (m.user_id == u && !m.is_read) = true
  · rw [if_pos hmu] at hfm
    subst hfm
    simp only [Bool.not_eq_true', Bool.and_eq_false_iff] at hcond
    rcases hcond with hc | hc
    · exact (beq_eq_false_iff_ne.mp hc) (by simpa using hu)
    · simp at hc
  · rw [if_neg hmu] at hfm
    subst hfm
    simp only [Bool.and_eq_true, beq_iff_eq, Bool.not_eq_true'] at hmu
    simp only [Bool.not_eq_true', Bool.and_eq_false_iff] at hcond
    rcases hcond with hc | hc
    · simp [hu] at hc
    · exact hmu ⟨hu, by simpa using hc⟩

/-- C7: opening a user's notification panel (mark all unread read, then
delete all read) leaves the user with no stored notifications at all; an
immediately subsequent fetch of that user's list returns the empty list,
and after any batch of notifications is created in between, a fetch
returns only notifications from that new batch. -/
theorem C7_open_panel (db : DB) (u now : Nat) (new : List Notification) :
    ((mark_notifications_read db u).notifications.filter
        fun n => n.user_id == u) = []
    ∧ (get_user_notifications (mark_notifications_read db u) u false now).2 = []
    ∧ (∀ m ∈ (get_user_notifications
          { mark_notifications_read db u with
              notifications := (mark_notifications_read db u).notifications ++ new }
          u false now).2, m ∈ new) := by
  refine ⟨?_, ?_, ?_⟩
  · exact List.filter_eq_nil_iff.mpr fun n hn => by
      simpa using open_panel_no_user_rows db u n hn
  · exact get_user_notifications_empty_of_no_user (open_panel_no_user_rows db u)
  · intro m hm
    rcases mem_get_user_notifications hm with ⟨hmem, hu⟩
    rcases List.mem_append.mp hmem with hold | hnew
    · exact absurd hu (open_panel_no_user_rows db u m hold)
    · exact hnew

def notifC7read : Notification :=
  { id := 1, user_id := 5, type := NType.APPOINTMENT_ACCEPTED,
    message := "old read", link := some "/patient/appointments",
    is_read := true, appointment_id := some 1, prescription_id := none,
    created_at := 10 }

def notifC7unread : Notification :=
  { id := 2, user_id := 5, type := NType.APPOINTMENT_REJECTED,
    message := "old unread", link := none, is_read := false,
    appointment_id := some 2, prescription_id := none, created_at := 20 }

def notifC7other : Notification :=
  { id := 3, user_id := 6, type := NType.PRESCRIPTION_WRITTEN,
    message := "other user", link := some "/patient/prescriptions",
    is_read := false, appointment_id := none, prescription_id := some 1,
    created_at := 30 }

def notifC7new : Notification :=
  { id := 4, user_id := 5, type := NType.APPOINTMENT_ACCEPTED,
    message := "created after panel open", link := some "/patient/appointments",
    is_read := false, appointment_id := some 3, prescription_id := none,
    created_at := 40 }

def dbC7 : DB :=
  { users := [{ id := 5, full_name := "Pat", role := Role.PATIENT }],
    patient_details_user_ids := [5],
    appointments := [], prescriptions := [], uploads := [],
    notifications := [notifC7read, notifC7unread, notifC7other],
    nextAppointmentId := 1, nextPrescriptionId := 1, nextNotificationId := 4 }

/-- C7 (witness): the theorem applied to user 5 of `dbC7`, who holds one
read and one unread notification beside another user's row; the
notification created after the panel was opened is the one the follow-up
fetch may return. -/
theorem C7_witness :
    ((mark_notifications_read dbC7 5).notifications.filter
        fun n => n.user_id == 5) = []
    ∧ (get_user_notifications (mark_notifications_read dbC7 5) 5 false 50).2 = []
    ∧ notifC7new ∈ [notifC7new] :=
  ⟨(C7_open_panel dbC7 5 50 [notifC7new]).1,
    (C7_open_panel dbC7 5 50 [notifC7new]).2.1,
    (C7_open_panel dbC7 5 50 [notifC7new]).2.2 notifC7new (by decide)⟩

/-! ## Claim C8 -/

theorem get_user_notifications_fst (db : DB) (u : Nat) (q : Bool) (now : Nat) :
    (get_user_notifications db u q now).1.notifications
      = db.notifications.filter fun n =>
          !(n.user_id == u && n.is_read && decide (n.created_at + seven_days < now)) :=
  rfl

theorem get_user_notifications_snd (db : DB) (u now : Nat) :
    (get_user_notifications db u false now).2
      = (sortDesc notifLe
          ((get_user_notifications db u false now).1.notifications.filter
            fun n => n.user_id == u)).take 50 :=
  rfl

/-- C8: fetching a user's notification list deletes exactly that user's
notifications that are both read and older than 7 days (an unread
notification of any age survives, and other users' rows are untouched),
then returns remaining notifications of that user ordered newest first and
capped at 50; independently, the startup sweep deletes exactly the
notifications older than 30 days, regardless of read state or owner. -/
theorem C8_notification_sweeps (db : DB) (u now : Nat) :
    (∀ n, n ∈ (get_user_notifications db u false now).1.notifications ↔
        (n ∈ db.notifications
          ∧ ¬(n.user_id = u ∧ n.is_read = true ∧ n.created_at + seven_days < now)))
    ∧ (∀ n ∈ db.notifications, n.user_id = u → n.is_read = false →
        n ∈ (get_user_notifications db u false now).1.notifications)
    ∧ (∀ n ∈ db.notifications, n.user_id ≠ u →
        n ∈ (get_user_notifications db u false now).1.notifications)
    ∧ (∀ m ∈ (get_user_notifications db u false now).2,
        m ∈ (get_user_notifications db u false now).1.notifications
          ∧ m.user_id = u)
    ∧ ((get_user_notifications db u false now).2).Pairwise
        (fun a b => b.created_at ≤ a.created_at)
    ∧ ((get_user_notifications db u false now).2).length ≤ 50
    ∧ (∀ n, n ∈ (cleanup_old_notifications db now).notifications ↔
        (n ∈ db.notifications ∧ ¬(n.created_at + thirty_days < now))) := by
  have hmem : ∀ n, n ∈ (get_user_notifications db u false now).1.notifications ↔
      (n ∈ db.notifications
        ∧ ¬(n.user_id = u ∧ n.is_read = true ∧ n.created_at + seven_days < now)) := by
    intro n
    rw [get_user_notifications_fst, List.mem_filter]
    constructor
    · rintro ⟨h1, h2⟩
      refine ⟨h1, ?_⟩
      rintro ⟨ha, hb, hc⟩
      simp [ha, hb, hc] at h2
    · rintro ⟨h1, h2⟩
      refine ⟨h1, ?_⟩
      by_cases ha : n.user_id = u
      · by_cases hb : n.is_read = true
        · by_cases hc : n.created_at + seven_days < now
          · exact absurd ⟨ha, hb, hc⟩ h2
          · simp [ha, hb, hc]
        · simp [ha, hb]
      · simp [ha]
  refine ⟨hmem, ?_, ?_, ?_, ?_, ?_, ?_⟩
  · intro n hn hu hr
    exact (hmem n).mpr ⟨hn, by rintro ⟨_, hb, _⟩; rw [hr] at hb; cases hb⟩
  · intro n hn hu
    exact (hmem n).mpr ⟨hn, by rintro ⟨ha, _, _⟩; exact hu ha⟩
  · intro m hm
    rw [get_user_notifications_snd] at hm
    have hm2 := mem_sortDesc.mp (List.take_subset _ _ hm)
    rcases List.mem_filter.mp hm2 with ⟨h1, h2⟩
    exact ⟨h1, by simpa using h2⟩
  · rw [get_user_notifications_snd]
    refine List.Pairwise.sublist (List.take_sublist _ _) ?_
    exact (pairwise_sortDesc notifLe notifLe_total notifLe_trans _).imp
      fun h => of_decide_eq_true h
  · rw [get_user_notifications_snd]
    exact List.length_take_le _ _
  · intro n
    unfold cleanup_old_notifications
    rw [List.mem_filter]
    constructor
    · rintro ⟨h1, h2⟩
      exact ⟨h1, by simpa using h2⟩
    · rintro ⟨h1, h2⟩
      exact ⟨h1, by simpa using h2⟩

def notifC8readOld : Notification :=
  { id := 1, user_id := 5, type := NType.APPOINTMENT_ACCEPTED,
    message := "read and old", link := some "/patient/appointments",
    is_read := true, appointment_id := some 1, prescription_id := none,
    created_at := 172800 }

def notifC8unreadOld : Notification :=
  { id := 2, user_id := 5, type := NType.APPOINTMENT_REJECTED,
    message := "unread and old", link := none, is_read := false,
    appointment_id := some 2, prescription_id := none, created_at := 172800 }

def notifC8other : Notification :=
  { id := 3, user_id := 6, type := NType.PRESCRIPTION_WRITTEN,
    message := "other user, read and old", link := some "/patient/prescriptions",
    is_read := true, appointment_id := none, prescription_id := some 1,
    created_at := 172800 }

def dbC8 : DB :=
  { users := [{ id := 5, full_name := "Pat", role := Role.PATIENT }],
    patient_details_user_ids := [5],
    appointments := [], prescriptions := [], uploads := [],
    notifications := [notifC8readOld, notifC8unreadOld, notifC8other],
    nextAppointmentId := 1, nextPrescriptionId := 1, nextNotificationId := 4 }

/-- C8 (witness): the theorem applied at `dbC8` 31 days in: user 5's
unread 28-day-old notification survives the read-sweep, and user 6's read
28-day-old notification is untouched by user 5's fetch. -/
theorem C8_witness :
    notifC8unreadOld ∈ (get_user_notifications dbC8 5 false 2678400).1.notifications
    ∧ notifC8other ∈ (get_user_notifications dbC8 5 false 2678400).1.notifications :=
  ⟨(C8_notification_sweeps dbC8 5 2678400).2.1 notifC8unreadOld (by decide) rfl rfl,
    (C8_notification_sweeps dbC8 5 2678400).2.2.1 notifC8other (by decide) (by decide)⟩

/-! ## Claim C9 -/

def apptC9a : Appointment :=
  { id := 1, patient_id := 1, doctor_id := 2, date := "2024-01-01",
    time := "09:00", symptoms := none, status := Status.CONFIRMED,
    created_at := 0 }

def apptC9b : Appointment :=
  { id := 2, patient_id := 1, doctor_id := 2, date := "2024-01-02",
    time := "09:00", symptoms := none, status := Status.PENDING,
    created_at := 0 }

def dbC9 : DB :=
  { users := [{ id := 1, full_name := "P", role := Role.PATIENT }],
    patient_details_user_ids := [1],
    appointments := [apptC9a, apptC9b],
    prescriptions := [], uploads := [], notifications := [],
    nextAppointmentId := 3, nextPrescriptionId := 1, nextNotificationId := 1 }

/-- C9 (counterexample): patient 1 has two appointments with doctor 2 (one
CONFIRMED dated 2024-01-01, one PENDING dated 2024-01-02), so the
patient's total appointment count with the doctor is 2 and the most recent
appointment date is 2024-01-02; yet the roster annotates the patient with
total 1 and last visit 2024-01-01 - the aggregates range only over
CONFIRMED/COMPLETED rows, refuting the claim as stated. -/
theorem C9_counterexample :
    ((get_doctor_patients dbC9 2).map
        fun e => (e.id, e.total_appointments, e.last_visit))
      = [(1, 1, "2024-01-01")]
    ∧ (dbC9.appointments.filter
        fun a => a.patient_id == 1 && a.doctor_id == 2).length = 2
    ∧ ((dbC9.appointments.filter
          fun a => a.patient_id == 1 && a.doctor_id == 2).map
          fun a => a.date).foldl strMax "" = "2024-01-02" := by
  refine ⟨?_, ?_, ?_⟩ <;> decide

/-- C9 (amended): the roster contains exactly the users owning a
`patient_details` row that have at least one CONFIRMED or COMPLETED
appointment with the doctor; each entry is annotated with the distinct
count of those CONFIRMED/COMPLETED appointments (PENDING and REJECTED
appointments are not counted), the COMPLETED count, and the most recent
date among those CONFIRMED/COMPLETED appointments, and the roster is
ordered by that date, most recent first. -/
theorem C9_roster_characterization (db : DB) (d : Nat) :
    (∀ e ∈ get_doctor_patients db d,
        e.id ∈ db.users.map User.id
        ∧ e.id ∈ db.patient_details_user_ids
        ∧ ccAppointments db d e.id ≠ []
        ∧ e.total_appointments
            = (((ccAppointments db d e.id).map fun a => a.id).dedup).length
        ∧ e.completed_appointments
            = ((ccAppointments db d e.id).filter
                fun a => a.status == Status.COMPLETED).length
        ∧ e.last_visit
            = ((ccAppointments db d e.id).map fun a => a.date).foldl strMax "")
    ∧ (∀ u ∈ db.users, u.id ∈ db.patient_details_user_ids →
        ccAppointments db d u.id ≠ [] →
        u.id ∈ (get_doctor_patients db d).map RosterEntry.id)
    ∧ (get_doctor_patients db d).Pairwise
        (fun e1 e2 => strLe e2.last_visit e1.last_visit = true) := by
  refine ⟨?_, ?_, ?_⟩
  · intro e he
    rw [get_doctor_patients, mem_sortDesc] at he
    rcases List.mem_filterMap.mp he with ⟨u, hu, hfu⟩
    unfold rosterRow at hfu
    by_cases hdet : u.id ∈ db.patient_details_user_ids
    · rw [if_pos hdet] at hfu
      by_cases happ : ccAppointments db d u.id = []
      · rw [if_pos happ] at hfu
        cases hfu
      · rw [if_neg happ] at hfu
        have he2 := Option.some.inj hfu
        subst he2
        exact ⟨List.mem_map.mpr ⟨u, hu, rfl⟩, hdet, happ, rfl, rfl, rfl⟩
    · rw [if_neg hdet] at hfu
      cases hfu
  · intro u hu hdet happ
    have hmem : { id := u.id, full_name := u.full_name,
                  total_appointments :=
                    (((ccAppointments db d u.id).map fun a => a.id).dedup).length,
                  last_visit :=
                    ((ccAppointments db d u.id).map fun a => a.date).foldl
                      strMax "",
                  completed_appointments :=
                    ((ccAppointments db d u.id).filter
                      fun a => a.status == Status.COMPLETED).length }
        ∈ get_doctor_patients db d := by
      rw [get_doctor_patients, mem_sortDesc]
      refine List.mem_filterMap.mpr ⟨u, hu, ?_⟩
      unfold rosterRow
      rw [if_pos hdet, if_neg happ]
    exact List.mem_map.mpr ⟨_, hmem, rfl⟩
  · rw [get_doctor_patients]
    exact pairwise_sortDesc rosterLe rosterLe_total rosterLe_trans _

/-- C9 (witness): the amended theorem's completeness direction applied to
patient 1 of `dbC9`, who has a CONFIRMED appointment with doctor 2. -/
theorem C9_witness :
    (1 : Nat) ∈ (get_doctor_patients dbC9 2).map RosterEntry.id :=
  (C9_roster_characterization dbC9 2).2.1
    { id := 1, full_name := "P", role := Role.PATIENT }
    (by decide) (by decide) (by decide)

/-! ## Claim C10 -/

theorem validMedicines_take (ns ds us : List String) :
    validMedicines ns ds us
      = validMedicines (ns.take (min ns.length (min ds.length us.length)))
          (ds.take (min ns.length (min ds.length us.length)))
          (us.take (min ns.length (min ds.length us.length))) := by
  induction ns generalizing ds us with
  | nil => simp [validMedicines]
  | cons n ns2 ih =>
      cases ds with
      | nil => simp [validMedicines]
      | cons d ds2 =>
          cases us with
          | nil => simp [validMedicines]
          | cons u us2 =>
              by_cases h : pyStrip n ≠ "" ∧ pyStrip d ≠ "" ∧ pyStrip u ≠ ""
              · simp only [List.length_cons, Nat.succ_min_succ,
                  List.take_succ_cons, validMedicines, if_pos h]
                rw [← ih ds2 us2]
              · simp only [List.length_cons, Nat.succ_min_succ,
                  List.take_succ_cons, validMedicines, if_neg h]
                rw [← ih ds2 us2]

theorem validMedicines_length_le (ns ds us : List String) :
    (validMedicines ns ds us).length
      ≤ min ns.length (min ds.length us.length) := by
  induction ns generalizing ds us with
  | nil => simp [validMedicines]
  | cons n ns2 ih =>
      cases ds with
      | nil => simp [validMedicines]
      | cons d ds2 =>
          cases us with
          | nil => simp [validMedicines]
          | cons u us2 =>
              have h2 := ih ds2 us2
              by_cases h : pyStrip n ≠ "" ∧ pyStrip d ≠ "" ∧ pyStrip u ≠ ""
              · simp only [List.length_cons, Nat.succ_min_succ, validMedicines,
                  if_pos h, List.length_cons]
                omega
              · simp only [List.length_cons, Nat.succ_min_succ, validMedicines,
                  if_neg h]
                omega

/-- C10: the three medicine form lists are combined positionally and
truncated to the shortest list - the kept medicines depend only on the
first `min` of the three lengths entries of each list, at most that many
entries are stored, and a trailing entry beyond the shortest list is
discarded even when all of its fields are non-blank (here the fully valid
second name/duration pair is dropped because only one dosage was
submitted). -/
theorem C10_zip_truncation (ns ds us : List String) :
    (validMedicines ns ds us
      = validMedicines (ns.take (min ns.length (min ds.length us.length)))
          (ds.take (min ns.length (min ds.length us.length)))
          (us.take (min ns.length (min ds.length us.length))))
    ∧ (validMedicines ns ds us).length
        ≤ min ns.length (min ds.length us.length)
    ∧ validMedicines ["para", "ibu"] ["500mg"] ["3 days", "5 days"]
        = [{ name := "para", dosage := "500mg", duration := "3 days" }] :=
  ⟨validMedicines_take ns ds us, validMedicines_length_le ns ds us, by decide⟩

end HMS
